import Mathlib

/-!
Shallow embedding of `src/data/convert_daily_data.py` (a Python 2 script that
loads price series, matches them to a target date grid, converts prices to
returns or premiums, and saves the results).

Modelling conventions:
* Numeric values are rationals (`ℚ`); the script's float arithmetic uses only
  `+ - * /` on small decimal inputs, and every claim is about the exact
  arithmetic expression, so `ℚ` carries the formulas verbatim.
* A Python run either returns a value or raises; this is `Except PyErr`.
* File I/O is a pure map from a path to its lines; `np.savetxt` and
  `io.savemat` outputs are collected in a result structure instead of being
  written to disk.
* Print statements are ignored (pure diagnostics).
-/

set_option autoImplicit false

namespace ConvertDailyData

/-- Uncaught Python exceptions that the script can raise. -/
inductive PyErr where
  /-- list or array index out of range -/
  | indexError
  /-- bad numeric conversion, bad argument, or mismatched array shapes -/
  | valueError
  /-- a local variable referenced before assignment -/
  | nameError
  /-- attribute access on `None` (e.g. `None.T`) -/
  | attributeError
  /-- `open` on a missing file -/
  | ioError
  deriving DecidableEq, Repr

/-- Split a character list at every character satisfying `p`, keeping empty
fields (the behaviour of Python `str.split(sep)` for a one-character
separator, and the building block for whitespace splitting).  Structurally
recursive so that concrete runs reduce inside the kernel. -/
def splitPred (p : Char → Bool) : List Char → List (List Char)
  | [] => [[]]
  | x :: xs =>
    let r := splitPred p xs
    if p x then [] :: r
    else
      match r with
      | [] => [[x]]
      | y :: ys => (x :: y) :: ys

/-- Python `s.split(c)` for the one-character separators this script uses
(`","`, `"\t"`, `"-"`, `"."`, `"/"`): split at every occurrence, keeping
empty fields. -/
def splitOnChar (c : Char) (l : List Char) : List (List Char) :=
  splitPred (fun x => x == c) l

/-- Python `s.strip()`: drop whitespace from both ends. -/
def trimChars (l : List Char) : List Char :=
  ((l.dropWhile Char.isWhitespace).reverse.dropWhile Char.isWhitespace).reverse

/-- `l.all Char.isDigit` as a named helper for the float parser. -/
def allDigits (l : List Char) : Bool := l.all Char.isDigit

/-- Decimal value of a digit list (most significant first). -/
def natOfDigits (l : List Char) : Nat := l.foldl (fun a c => a * 10 + (c.toNat - 48)) 0

/-- Python `float(s)` on the plain decimal strings this script feeds it:
optional sign, digits, optional fractional part.  (Exponent notation and
inf/nan are not exercised by the script's data and are not modelled.) -/
def parseRat (s : String) : Option ℚ :=
  let t := trimChars s.toList
  let sgn : ℚ := if t.head? = some '-' then -1 else 1
  let u := if t.head? = some '-' ∨ t.head? = some '+' then t.drop 1 else t
  match splitOnChar '.' u with
  | [w] =>
      if w ≠ [] ∧ allDigits w then some (sgn * natOfDigits w) else none
  | [w, f] =>
      if (w ≠ [] ∨ f ≠ []) ∧ allDigits w ∧ allDigits f then
        some (sgn * ((natOfDigits w : ℚ) + (natOfDigits f : ℚ) / (10 ^ f.length)))
      else none
  | _ => none

/-- `np.asarray(l).astype(float)` on a list of strings: every element must
parse as a float, otherwise `ValueError`. -/
def astype_float (l : List String) : Except PyErr (List ℚ) :=
  l.mapM (fun s =>
    match parseRat s with
    | some q => Except.ok q
    | none => Except.error PyErr.valueError)

/-- `row.strip().split(sep)`: with a separator split on each occurrence,
with `sep=None` split on whitespace runs discarding empty tokens.  The
script only passes one-character separators (`","` and `None`). -/
def pySplit (sep : Option Char) (row : String) : List String :=
  match sep with
  | some c => (splitOnChar c (trimChars row.toList)).map String.mk
  | none => ((splitPred Char.isWhitespace (trimChars row.toList)).filter
      (fun t => t ≠ [])).map String.mk

/-- `load_text(csvfile, sep, num_headerlines, header_return)`: read the file's
lines, strip and split each, return `out[header_return]` (or `False`, here
`none`) as the header, and the rows with the first `num_headerlines` dropped.
The file system is the map `fs` from a path to its lines. -/
def load_text (fs : String → Option (List String)) (csvfile : String)
    (sep : Option Char) (num_headerlines : Nat) (header_return : Option Nat) :
    Except PyErr (Option (List String) × List (List String)) := do
  let lines ← match fs csvfile with
    | none => Except.error PyErr.ioError
    | some ls => Except.ok ls
  let out := lines.map (pySplit sep)
  let header ← match header_return with
    | some i =>
      match out.get? i with
      | none => Except.error PyErr.indexError
      | some h => Except.ok (some h)
    | none => Except.ok none
  Except.ok (header, out.drop num_headerlines)

/-- Date normalisation inside `get_dates_yahoo`: split the date on hyphens,
concatenate the parts into `whole`, keep the slice `whole[1:9]`. -/
def normalize_date (yd : String) : String :=
  String.mk ((((splitOnChar '-' yd.toList).flatten).drop 1).take 8)

/-- The parsing prefix of `get_dates_yahoo` (lines before the `order` branch):
`list_of_lists = [item[0].split("\t") for item in yahoo_list]`,
`dates = [item[0] for item in list_of_lists]`,
`returns = [item[4] for item in list_of_lists]`,
then the date-normalisation loop producing `yahoo_dates`.
Returns the pair `(yahoo_dates, returns)` in native (newest-first) order. -/
def parse_yahoo (yahoo_list : List (List String)) :
    Except PyErr (List String × List String) := do
  let list_of_lists ← yahoo_list.mapM (fun item =>
    match item.get? 0 with
    | none => Except.error PyErr.indexError
    | some f => Except.ok ((splitOnChar '\t' f.toList).map String.mk))
  let dates ← list_of_lists.mapM (fun item =>
    match item.get? 0 with
    | none => Except.error PyErr.indexError
    | some d => Except.ok d)
  let returns ← list_of_lists.mapM (fun item =>
    match item.get? 4 with
    | none => Except.error PyErr.indexError
    | some r => Except.ok r)
  Except.ok (dates.map normalize_date, returns)

/-- `get_dates_yahoo(yahoo_list, order)`.  In the `order == "reverse"` branch
the Python returns `yahoo_dates, yahoo_returns`, but `yahoo_returns` is only
assigned inside the `"chronological"` branch, so that branch raises
`NameError`; any other order raises `ValueError`. -/
def get_dates_yahoo (yahoo_list : List (List String)) (order : String) :
    Except PyErr (List String × List String) := do
  let parsed ← parse_yahoo yahoo_list
  if order = "chronological" then
    Except.ok (parsed.1.reverse, parsed.2.reverse)
  else if order = "reverse" then
    Except.error PyErr.nameError
  else
    Except.error PyErr.valueError

/-- Python truthiness of a string: non-empty is `True`. -/
def pyTruthy (s : String) : Bool := !(s == "")

/-- Line 147: `if output_type is "returns" or "premiums":` parses as
`(output_type is "returns") or "premiums"`; the literal `"premiums"` is a
non-empty string and hence truthy, so the condition holds for every
`output_type` (the `is` identity test is modelled as string equality). -/
def convert_condition (output_type : String) : Bool :=
  (output_type == "returns") || pyTruthy "premiums"

/-- `prices_to_returns(p)` after `astype(float)`: for `m = len(p)` allocate
`np.zeros((m-1,1))` — which raises `ValueError` for `m = 0` (negative
dimension) — and fill `r[i] = (p[i+1]-p[i])/p[i]` for `i` in `xrange(m-1)`.
The `(m-1, 1)` column shape collapses to a flat list here; the script only
ever reads single entries from it. -/
def prices_to_returns (p : List ℚ) : Except PyErr (List ℚ) :=
  let m := p.length
  if m = 0 then Except.error PyErr.valueError
  else Except.ok ((List.range (m - 1)).map
    (fun i => (p.getD (i + 1) 0 - p.getD i 0) / p.getD i 0))

/-- The fill loop of `match_data` (`for i in xrange(len(target_dates))`).
Both branches store `daily_returns[daily_indices[j]]` into slot `i` of the
values array and `float(daily_dates[daily_indices[j]])` into slot `i` of the
dates array (a numpy float array, so the date string is converted, raising
`ValueError` if unparseable); only a non-missed target advances `j`.  Every
index access is bounds-checked exactly where numpy/Python would raise. -/
def match_loop (daily_dates : List String) (daily_returns : List ℚ)
    (daily_indices : List Nat) (misses : List String) :
    List String → Nat → Nat → List ℚ → List ℚ →
    Except PyErr (List ℚ × List ℚ)
  | [], _, _, dArr, rArr => Except.ok (dArr, rArr)
  | td :: rest, i, j, dArr, rArr =>
    match daily_indices.get? j with
    | none => Except.error PyErr.indexError
    | some k =>
      match daily_returns.get? k with
      | none => Except.error PyErr.indexError
      | some v =>
        if i < rArr.length then
          match daily_dates.get? k with
          | none => Except.error PyErr.indexError
          | some ds =>
            match parseRat ds with
            | none => Except.error PyErr.valueError
            | some dv =>
              if i < dArr.length then
                match_loop daily_dates daily_returns daily_indices misses rest
                  (i + 1) (if td ∈ misses then j else j + 1)
                  (dArr.set i dv) (rArr.set i v)
              else Except.error PyErr.indexError
        else Except.error PyErr.indexError

/-- `daily_indices = [idx for idx, dd in zip(range(len(daily_dates)), daily_dates)
if dd in target_dates]`: the positions of the source dates that occur in the
target list. -/
def matched_positions (daily_dates target_dates : List String) : List Nat :=
  (daily_dates.enum.filter (fun p => target_dates.contains p.2)).map Prod.fst

/-- The miss computation of `match_data`:
`daily_matched_dates = np.array(daily_dates)[daily_indices]` (the indices
are in range by construction, so the `getD` default is never used),
`matches = [item for item in daily_matched_dates if item in target_dates]`,
`misses = [item for item in target_dates if item not in matches]`
(`matches` is a Lean keyword, hence `matchesL`). -/
def missed_dates (daily_dates target_dates : List String) : List String :=
  let dmd0 := (matched_positions daily_dates target_dates).map
    (fun i => daily_dates.getD i "")
  let matchesL := dmd0.filter (fun item => target_dates.contains item)
  target_dates.filter (fun item => !(matchesL.contains item))

/-- `match_data(daily_dates, daily_returns, target_dates)`:
`daily_indices` are the positions of daily dates that occur in the target
list; both output arrays are allocated as `np.zeros(len(daily_indices))`
(`daily_matched_dates` is reassigned to a copy of that zeros array before the
loop); `misses` are the target dates with no exact match.  Returns
`(misses, daily_matched_dates, daily_matched_returns)`. -/
def match_data (daily_dates : List String) (daily_returns : List ℚ)
    (target_dates : List String) :
    Except PyErr (List String × List ℚ × List ℚ) := do
  let daily_indices := matched_positions daily_dates target_dates
  let daily_matched_returns : List ℚ := List.replicate daily_indices.length 0
  let misses := missed_dates daily_dates target_dates
  -- `daily_matched_dates = daily_matched_returns.copy()` before the loop
  let daily_matched_dates := daily_matched_returns
  let arrs ← match_loop daily_dates daily_returns daily_indices misses
    target_dates 0 0 daily_matched_dates daily_matched_returns
  Except.ok (misses, arrs.1, arrs.2)

/-- `np.squeeze(np.asarray(RF_data).astype(float))` for the single-column
risk-free file the script expects: each row is one field, parsed as a float;
the `(n, 1)` array squeezes to a flat vector.  (Multi-column risk-free data
would keep two dimensions and is not modelled; the shapes the script expects
are `(n, 1)`.) -/
def premium_squeeze (RF_data : List (List String)) : Except PyErr (List ℚ) :=
  RF_data.mapM (fun row =>
    match row with
    | [x] =>
      match parseRat x with
      | some q => Except.ok q
      | none => Except.error PyErr.valueError
    | _ => Except.error PyErr.valueError)

/-- Line 165: `matched_input_data - (1./(12*100.))*rf`, element-wise on
equal-length vectors (numpy raises on a shape mismatch). -/
def premium_core (matched : List ℚ) (rf : List ℚ) : Except PyErr (List ℚ) :=
  if matched.length = rf.length then
    Except.ok (matched.zipWith (fun m r => m - (1 / (12 * 100)) * r) rf)
  else Except.error PyErr.valueError

/-- `np.array(rows).astype(float)` on a 2-D row list: a ragged row list
becomes an object array whose float conversion raises `ValueError`;
otherwise every field is parsed. -/
def astype_float_2d (rows : List (List String)) : Except PyErr (List (List ℚ)) := do
  let out ← rows.mapM astype_float
  match out.head? with
  | none => Except.ok []
  | some r0 =>
    if out.all (fun r => r.length = r0.length) then Except.ok out
    else Except.error PyErr.valueError

/-- Lines 124-127 of `match_dates_and_save`: when a risk-free path is given,
load it, compute
`(np.array(target_data).astype(float) - (1./(12*100.))*np.asarray(RF_data).astype(float))[:, [1,4,7,10,13,16]]`
and return `(RF_data, target_data_out)`; with no risk-free path nothing is
computed (`target_data_out` stays unbound, hence the `Option`). -/
def mds_risk_free (fs : String → Option (List String)) (risk_free_path : Option String)
    (input_sep : Option Char) (target_data : List (List String)) :
    Except PyErr (Option (List (List String) × List (List ℚ))) :=
  match risk_free_path with
  | none => Except.ok none
  | some rp => do
    let (_, RF_data) ← load_text fs rp input_sep 0 none
    let t ← astype_float_2d target_data
    let r ← astype_float_2d RF_data
    -- the element-wise subtraction needs equal shapes (broadcasting is not
    -- exercised by the script's data and is not modelled)
    if t.length = r.length ∧ (t.zip r).all (fun p => p.1.length = p.2.length) then
      let diff := (t.zip r).map (fun p => p.1.zipWith (fun a b => a - (1 / (12 * 100)) * b) p.2)
      let target_indices := [1, 4, 7, 10, 13, 16]
      let target_data_out ← diff.mapM (fun row => target_indices.mapM (fun i =>
        match row.get? i with
        | some x => Except.ok x
        | none => Except.error PyErr.indexError))
      Except.ok (some (RF_data, target_data_out))
    else Except.error PyErr.valueError

/-- One iteration of the `for input_tuple in input_list` loop of
`match_dates_and_save` (lines 130-171): load the input file, extract dates
and values, rebuild the target date list, run the (always-true, see
`convert_condition`) price-to-return conversion, match to the target dates,
optionally subtract the risk-free rate, and produce the `np.savetxt` output
`(outfile, matched series)`.  In the dead `else` branch of the conversion the
string values would be coerced to floats when stored into the result array
inside `match_data`, so parsing them here is behaviour-equivalent.
`os.path.abspath('.')` is modelled as the empty prefix (paths stay
cwd-relative). -/
def mds_step (fs : String → Option (List String)) (input_sep : Option Char)
    (target_data : List (List String)) (RF_data : Option (List (List String)))
    (input_tuple : String × String) : Except PyErr (String × List ℚ) := do
  let input_path := input_tuple.1
  let output_type := input_tuple.2
  let (_, input_rows) ← load_text fs input_path input_sep 1 (some 0)
  let (input_dates, input_vals) ← get_dates_yahoo input_rows "chronological"
  let target_dates ← target_data.mapM (fun td =>
    match td.get? 0 with
    | some d => Except.ok d
    | none => Except.error PyErr.indexError)
  let input_returns ←
    if convert_condition output_type then do
      let nums ← astype_float input_vals
      prices_to_returns nums
    else
      astype_float input_vals
  let (_missed, _mdates, matched0) ← match_data input_dates input_returns target_dates
  let matched ←
    match RF_data with
    | some rfRows =>
      if output_type = "premiums" then do
        let rf ← premium_squeeze rfRows
        premium_core matched0 rf
      else Except.ok matched0
    | none => Except.ok matched0
  let base := String.mk ((splitOnChar '.'
    ((splitOnChar '/' input_path.toList).getLastD [])).headD [])
  Except.ok (output_type ++ "/" ++ base ++ "_returns.csv", matched)

/-- `np.vstack((out_mat, row))` step: start the matrix on the first row;
every stacked row must have the same length (numpy raises otherwise). -/
def vstack_row (out_mat : Option (List (List ℚ))) (row : List ℚ) :
    Except PyErr (List (List ℚ)) :=
  match out_mat with
  | none => Except.ok [row]
  | some m =>
    match m.head? with
    | some r0 => if r0.length = row.length then Except.ok (m ++ [row])
                 else Except.error PyErr.valueError
    | none => Except.ok [row]

/-- The whole input loop (lines 130-177): accumulate the per-file
`np.savetxt` outputs and, when `save_mat`, the `np.vstack`ed matrix. -/
def mds_loop (fs : String → Option (List String)) (input_sep : Option Char)
    (target_data : List (List String)) (RF_data : Option (List (List String)))
    (save_mat : Bool) :
    List (String × String) → List (String × List ℚ) → Option (List (List ℚ)) →
    Except PyErr (List (String × List ℚ) × Option (List (List ℚ)))
  | [], csvs, out_mat => Except.ok (csvs, out_mat)
  | t :: rest, csvs, out_mat => do
    let (outfile, matched) ← mds_step fs input_sep target_data RF_data t
    let out_mat2 ←
      if save_mat then do
        let m ← vstack_row out_mat matched
        Except.ok (some m)
      else Except.ok out_mat
    mds_loop fs input_sep target_data RF_data save_mat rest
      (csvs ++ [(outfile, matched)]) out_mat2

/-- Everything the script writes: the per-file `np.savetxt` outputs and the
optional `io.savemat` payload `(predictors, targets)` of
`All_variables_matched.mat`. -/
structure SaveOutput where
  csvs : List (String × List ℚ)
  mat : Option (List (List ℚ) × List (List ℚ))
  deriving DecidableEq, Repr

/-- Lines 179-182: when `save_mat`, build
`{'predictors': out_mat.T, 'targets': target_data_out}` and save it.  The
dict literal evaluates `out_mat.T` first — `AttributeError` if the input list
was empty and `out_mat` is still `None` — and then `target_data_out`, which
raises `NameError` when no risk-free path was supplied, because that name is
only assigned inside the `if risk_free_path is not None` block. -/
def mds_finalize (save_mat : Bool) (csvs : List (String × List ℚ))
    (out_mat : Option (List (List ℚ)))
    (rfAndTargets : Option (List (List String) × List (List ℚ))) :
    Except PyErr SaveOutput :=
  if save_mat then
    match out_mat with
    | none => Except.error PyErr.attributeError
    | some m =>
      match rfAndTargets with
      | none => Except.error PyErr.nameError
      | some rt => Except.ok ⟨csvs, some (m.transpose, rt.2)⟩
  else Except.ok ⟨csvs, none⟩

/-- `match_dates_and_save(input_list, target_path, order, save_mat,
input_sep, target_sep, risk_free_path)`.  The `order` parameter is accepted
but never used by the body (the `get_dates_yahoo` call uses its default
`"chronological"`).  The `input_list`-coercion line is subsumed by the list
type of `input_list`. -/
def match_dates_and_save (fs : String → Option (List String))
    (input_list : List (String × String)) (target_path : String) (order : String)
    (save_mat : Bool) (input_sep : Option Char) (target_sep : Option Char)
    (risk_free_path : Option String) : Except PyErr SaveOutput := do
  let _ := order
  let loaded ← load_text fs target_path target_sep 3 (some 1)
  let target_data := loaded.2
  let rfAndTargets ← mds_risk_free fs risk_free_path input_sep target_data
  let looped ← mds_loop fs input_sep target_data
    (rfAndTargets.map Prod.fst) save_mat input_list [] none
  mds_finalize save_mat looped.1 looped.2 rfAndTargets

/-- A tiny in-memory file system for concrete runs: a Fama-French-style
target file (three header lines, then one date key per row) and a Yahoo-style
input file (one header line, then newest-first rows whose field 0 holds the
tab-separated record). -/
def fsDemo : String → Option (List String) := fun p =>
  if p = "target.txt" then
    some ["h0", "h1", "h2", "0200101", "0200102", "0200103"]
  else if p = "in.csv" then
    some ["Date,Open,High,Low,Close,Volume",
          "2020-01-04\ta\tb\tc\t8",
          "2020-01-03\ta\tb\tc\t4",
          "2020-01-02\ta\tb\tc\t2",
          "2020-01-01\ta\tb\tc\t1"]
  else none

/-! ### Helper lemmas -/

/-- Binding a successful `Except` computation just applies the continuation. -/
theorem bind_ok_eq {ε α β : Type} (a : α) (f : α → Except ε β) :
    (Except.ok a : Except ε α) >>= f = f a := rfl

/-- A successful bind decomposes into a successful head and continuation. -/
theorem except_bind_eq_ok {ε α β : Type} {x : Except ε α} {f : α → Except ε β}
    {b : β} (h : x >>= f = Except.ok b) :
    ∃ a, x = Except.ok a ∧ f a = Except.ok b := by
  cases x with
  | error e => exact Except.noConfusion h
  | ok a => exact ⟨a, rfl, h⟩

/-- On a normal return, the fill loop of `match_data` preserves the lengths
of both arrays, and — having written slot `i` for every processed target
date — a non-empty target list forces `ts.length + i ≤ rArr.length`. -/
theorem match_loop_ok_spec (dd : List String) (dr : List ℚ) (di : List Nat)
    (mis : List String) (ts : List String) :
    ∀ (i j : Nat) (dArr rArr : List ℚ) (out : List ℚ × List ℚ),
      match_loop dd dr di mis ts i j dArr rArr = Except.ok out →
      out.1.length = dArr.length ∧ out.2.length = rArr.length ∧
        (ts = [] ∨ ts.length + i ≤ rArr.length) := by
  induction ts with
  | nil =>
    intro i j dArr rArr out h
    simp only [match_loop] at h
    injection h with h
    subst h
    exact ⟨rfl, rfl, Or.inl rfl⟩
  | cons td rest ih =>
    intro i j dArr rArr out h
    simp only [match_loop] at h
    split at h
    · exact Except.noConfusion h
    · split at h
      · exact Except.noConfusion h
      · by_cases hiR : i < rArr.length
        · rw [if_pos hiR] at h
          split at h
          · exact Except.noConfusion h
          · split at h
            · exact Except.noConfusion h
            · by_cases hiD : i < dArr.length
              · rw [if_pos hiD] at h
                obtain ⟨h1, h2, h3⟩ := ih _ _ _ _ _ h
                rw [List.length_set] at h1
                rw [List.length_set] at h2
                refine ⟨h1, h2, Or.inr ?_⟩
                rcases h3 with h3 | h3
                · subst h3
                  simp only [List.length_cons, List.length_nil]
                  omega
                · rw [List.length_set] at h3
                  simp only [List.length_cons]
                  omega
              · rw [if_neg hiD] at h
                exact Except.noConfusion h
        · rw [if_neg hiR] at h
          exact Except.noConfusion h

/-! ### Claims -/

/-- C1 (code bug): the spec says output type "prices" writes the series
without converting prices to returns, conversion happening only for
"returns" and "premiums".  In the code, line 147 reads
`if output_type is "returns" or "premiums":`, which Python parses as
`(output_type is "returns") or "premiums"`; the non-empty literal
`"premiums"` is truthy, so the conversion branch is taken for every output
type, including "prices".  Concretely: a run over one "prices" input with
matched prices `[1, 2, 4, 8]` writes `[1, 1, 1]` — exactly
`prices_to_returns` of those prices — instead of the prices themselves. -/
theorem c1_prices_are_converted_anyway :
    convert_condition "prices" = true ∧
    match_dates_and_save fsDemo [("in.csv", "prices")] "target.txt" "chronological"
      false (some ',') none none =
      Except.ok ⟨[("prices/in_returns.csv", [1, 1, 1])], none⟩ ∧
    prices_to_returns [1, 2, 4, 8] = Except.ok [1, 1, 1] :=
  ⟨rfl, by with_unfolding_all rfl, by with_unfolding_all rfl⟩

/-- C2 counterexample: on source dates `["1", "1"]` with values `[10, 20]`
and target date list `["1"]`, `match_data` returns normally but both matched
arrays have length 2 (the number of matched source positions), not the
target-list length 1 — the arrays are allocated as
`np.zeros(len(daily_indices))`, not `np.zeros(len(target_dates))`. -/
theorem c2_length_counterexample :
    match_data ["1", "1"] [10, 20] ["1"] =
      Except.ok ([], ([1, 0] : List ℚ), ([10, 0] : List ℚ)) ∧
    ¬ (([10, 0] : List ℚ).length = (["1"] : List String).length) :=
  ⟨by with_unfolding_all rfl, by decide⟩

/-- C2 (amended): whenever `match_data` returns normally, the matched date
array and matched value array each have length equal to the number of source
positions whose date appears in the target list (`matched_positions`), and
that number is at least — but not always equal to — the target list
length. -/
theorem c2_matched_array_lengths (dd : List String) (dr : List ℚ)
    (td mi : List String) (md mr : List ℚ)
    (h : match_data dd dr td = Except.ok (mi, md, mr)) :
    md.length = (matched_positions dd td).length ∧
    mr.length = (matched_positions dd td).length ∧
    td.length ≤ (matched_positions dd td).length := by
  simp only [match_data] at h
  obtain ⟨arrs, hm, hf⟩ := except_bind_eq_ok h
  injection hf with hf
  obtain ⟨h1, h2, h3⟩ := match_loop_ok_spec dd dr (matched_positions dd td)
    (missed_dates dd td) td 0 0 _ _ arrs hm
  rw [List.length_replicate] at h1 h2
  have hmd : md = arrs.1 := by
    have := congrArg (fun t => t.2.1) hf
    simpa using this.symm
  have hmr : mr = arrs.2 := by
    have := congrArg (fun t => t.2.2) hf
    simpa using this.symm
  refine ⟨hmd ▸ h1, hmr ▸ h2, ?_⟩
  rcases h3 with h3 | h3
  · subst h3
    simp
  · rw [List.length_replicate] at h3
    omega

/-- C2 witness: a normal return of `match_data` realising the amended
statement, with two matched source positions against one target date. -/
theorem c2_matched_array_lengths_witness :
    ([1, 0] : List ℚ).length = (matched_positions ["1", "1"] ["1"]).length ∧
    ([10, 0] : List ℚ).length = (matched_positions ["1", "1"] ["1"]).length ∧
    (["1"] : List String).length ≤ (matched_positions ["1", "1"] ["1"]).length :=
  c2_matched_array_lengths ["1", "1"] [10, 20] ["1"] [] [1, 0] [10, 0]
    (by with_unfolding_all rfl)

/-- C3 (code bug): on the spec's end-to-end example — target dates
`["20200101", "20200102", "20200103"]`, source dates
`["20200101", "20200103"]` with values `[10, 12]` — the claim expects misses
`["20200102"]` and matched values `[10, 12, 12]`.  The code instead raises
`IndexError`: the result arrays are allocated with length
`len(daily_indices) = 2`, and the fill loop writes slot `i = 2`. -/
theorem c3_spec_example_raises_index_error :
    match_data ["20200101", "20200103"] [10, 12]
      ["20200101", "20200102", "20200103"] = Except.error PyErr.indexError := by
  with_unfolding_all rfl

/-- C4: whenever `prices_to_returns` returns a sequence, its length is
`m - 1` for an input of length `m`, and entry `i` equals
`(p[i+1] - p[i]) / p[i]`. -/
theorem c4_prices_to_returns_spec (p r : List ℚ) (i : Nat)
    (h : prices_to_returns p = Except.ok r) (hi : i < p.length - 1) :
    r.length = p.length - 1 ∧
    r.getD i 0 = (p.getD (i + 1) 0 - p.getD i 0) / p.getD i 0 := by
  simp only [prices_to_returns] at h
  split at h
  · exact Except.noConfusion h
  · injection h with h
    subst h
    have hlen : ((List.range (p.length - 1)).map
        (fun i => (p.getD (i + 1) 0 - p.getD i 0) / p.getD i 0)).length =
        p.length - 1 := by
      simp
    refine ⟨hlen, ?_⟩
    have hi' : i < ((List.range (p.length - 1)).map
        (fun i => (p.getD (i + 1) 0 - p.getD i 0) / p.getD i 0)).length := by
      rw [hlen]; exact hi
    rw [List.getD_eq_getElem _ _ hi', List.getElem_map, List.getElem_range]

/-- C4 witness: `prices_to_returns [1, 2, 4] = [1, 1]`, of length `3 - 1`,
with entry 0 equal to `(2 - 1) / 1`. -/
theorem c4_prices_to_returns_witness :
    ([1, 1] : List ℚ).length = ([1, 2, 4] : List ℚ).length - 1 ∧
    ([1, 1] : List ℚ).getD 0 0 =
      (([1, 2, 4] : List ℚ).getD 1 0 - ([1, 2, 4] : List ℚ).getD 0 0) /
        ([1, 2, 4] : List ℚ).getD 0 0 :=
  c4_prices_to_returns_spec [1, 2, 4] [1, 1] 0 (by with_unfolding_all rfl)
    (by decide)

/-- C5: whenever the premium subtraction line runs (output type "premiums"
with a risk-free series), each output value equals the matched return minus
`risk_free / 1200`: the code's `(1./(12*100.)) * rf` is exactly
`rf / 1200`. -/
theorem c5_premium_formula (matched rf out : List ℚ) (i : Nat)
    (h : premium_core matched rf = Except.ok out) (hi : i < out.length) :
    out.length = matched.length ∧
    out.getD i 0 = matched.getD i 0 - rf.getD i 0 / 1200 := by
  unfold premium_core at h
  by_cases hlen : matched.length = rf.length
  · rw [if_pos hlen] at h
    injection h with h
    subst h
    have hl : (matched.zipWith (fun m r => m - 1 / (12 * 100) * r) rf).length =
        matched.length := by
      rw [List.length_zipWith, hlen, min_self]
    refine ⟨hl, ?_⟩
    have hi1 : i < matched.length := by rw [← hl]; exact hi
    have hi2 : i < rf.length := by omega
    rw [List.getD_eq_getElem _ _ hi, List.getElem_zipWith,
      List.getD_eq_getElem _ _ hi1, List.getD_eq_getElem _ _ hi2]
    ring
  · rw [if_neg hlen] at h
    exact Except.noConfusion h

/-- C5 witness: premiums of matched returns `[1, 2]` against risk-free
values `[1200, 2400]` are `[1 - 1, 2 - 2] = [0, 0]`. -/
theorem c5_premium_formula_witness :
    ([0, 0] : List ℚ).length = ([1, 2] : List ℚ).length ∧
    ([0, 0] : List ℚ).getD 0 0 =
      ([1, 2] : List ℚ).getD 0 0 - ([1200, 2400] : List ℚ).getD 0 0 / 1200 :=
  c5_premium_formula [1, 2] [1200, 2400] [0, 0] 0 (by with_unfolding_all rfl)
    (by decide)

/-- C6: with `order = "chronological"`, `get_dates_yahoo` returns exactly
the reverses of the raw parsed (newest-first) date-key and value lists. -/
theorem c6_chronological_reverses (l : List (List String)) (yd rt : List String)
    (h : parse_yahoo l = Except.ok (yd, rt)) :
    get_dates_yahoo l "chronological" = Except.ok (yd.reverse, rt.reverse) := by
  unfold get_dates_yahoo
  rw [h]
  rfl

/-- C6 witness: a two-row newest-first list parses to
`(["0200102", "0200101"], ["5", "3"])` and the chronological call returns
the reverses of those lists. -/
theorem c6_chronological_reverses_witness :
    get_dates_yahoo [["2020-01-02\ta\tb\tc\t5"], ["2020-01-01\ta\tb\tc\t3"]]
      "chronological" =
      Except.ok ((["0200102", "0200101"] : List String).reverse,
        (["5", "3"] : List String).reverse) :=
  c6_chronological_reverses _ ["0200102", "0200101"] ["5", "3"] rfl

/-- C7 (code bug): the spec says `order = "reverse"` keeps native order
without failing, and the docstring documents "reverse" as a supported order;
but in that branch the code returns `yahoo_returns`, a name that is only
assigned inside the `"chronological"` branch, so the call raises
`NameError` instead of returning. -/
theorem c7_reverse_raises_name_error :
    get_dates_yahoo [["2020-01-02\ta\tb\tc\t5"]] "reverse" =
      Except.error PyErr.nameError :=
  rfl

/-- C8: on input rows that parse, `get_dates_yahoo` fails with `ValueError`
exactly for order values outside `{"chronological", "reverse"}`.  (On rows
that do not parse, the parsing lines raise `IndexError` before the order is
ever examined, so `ValueError` still implies an invalid order.) -/
theorem c8_value_error_iff_bad_order (l : List (List String)) (ord : String)
    (yd rt : List String) (h : parse_yahoo l = Except.ok (yd, rt)) :
    (get_dates_yahoo l ord = Except.error PyErr.valueError ↔
      (ord ≠ "chronological" ∧ ord ≠ "reverse")) := by
  unfold get_dates_yahoo
  rw [h, bind_ok_eq]
  by_cases h1 : ord = "chronological"
  · subst h1
    simp
  · by_cases h2 : ord = "reverse"
    · subst h2
      simp [h1]
    · simp [h1, h2]

/-- C8 witness: with parsing rows, order `"up"` yields exactly the usage
`ValueError`. -/
theorem c8_value_error_iff_bad_order_witness :
    (get_dates_yahoo [["2020-01-02\ta\tb\tc\t5"]] "up" =
        Except.error PyErr.valueError ↔
      (("up" : String) ≠ "chronological" ∧ ("up" : String) ≠ "reverse")) :=
  c8_value_error_iff_bad_order [["2020-01-02\ta\tb\tc\t5"]] "up"
    ["0200102"] ["5"] rfl

/-- C9 counterexample: for the standard hyphenated date `"2020-01-02"` the
concatenation `"20200102"` has 8 characters, so the slice `whole[1:9]` keeps
only 7 of them — `"0200102"` — dropping the leading digit of the year; the
produced key is not an 8-character string. -/
theorem c9_seven_chars_counterexample :
    normalize_date "2020-01-02" = "0200102" ∧
    ¬ ((normalize_date "2020-01-02").length = 8) :=
  ⟨rfl, by decide⟩

/-- C9 (amended): the date key is the slice `whole[1:9]` of the
hyphen-stripped concatenation `whole`; its length is `min 8 (len(whole) - 1)`
— 8 characters only when the concatenation has at least 9 characters, and 7
for a standard 10-character hyphenated date. -/
theorem c9_normalize_date_length (yd : String) :
    (normalize_date yd).length =
      min 8 (((splitOnChar '-' yd.toList).flatten).length - 1) := by
  unfold normalize_date
  simp [String.length, List.length_take, List.length_drop]

/-- C10: with `save_mat = True` and `risk_free_path = None`, once the input
loop completes the final combined-matrix save evaluates `target_data_out`,
which was only assigned under `if risk_free_path is not None`, so the run
fails with `NameError` and no `.mat` payload is produced. -/
theorem c10_save_mat_without_risk_free_name_error
    (fs : String → Option (List String)) (input_list : List (String × String))
    (target_path order : String) (input_sep target_sep : Option Char)
    (th : Option (List String)) (target_data : List (List String))
    (w : List (String × List ℚ)) (m : List (List ℚ))
    (h1 : load_text fs target_path target_sep 3 (some 1) =
      Except.ok (th, target_data))
    (h2 : mds_loop fs input_sep target_data none true input_list [] none =
      Except.ok (w, some m)) :
    match_dates_and_save fs input_list target_path order true input_sep
      target_sep none = Except.error PyErr.nameError := by
  simp only [match_dates_and_save, h1, bind_ok_eq, mds_risk_free,
    Option.map_none', h2, mds_finalize, if_true]

/-- C10 witness: the demo run (one input file, `save_mat = True`, no
risk-free path) fails with `NameError` at the final save. -/
theorem c10_save_mat_without_risk_free_witness :
    match_dates_and_save fsDemo [("in.csv", "prices")] "target.txt"
      "chronological" true (some ',') none none =
      Except.error PyErr.nameError :=
  c10_save_mat_without_risk_free_name_error fsDemo [("in.csv", "prices")]
    "target.txt" "chronological" (some ',') none (some ["h1"])
    [["0200101"], ["0200102"], ["0200103"]]
    [("prices/in_returns.csv", [1, 1, 1])] [[1, 1, 1]]
    (by with_unfolding_all rfl) (by with_unfolding_all rfl)

end ConvertDailyData
